import Mathlib

/-!
Verification of the lbex external load-balancer controller (`controller.go`).

This file shallow-embeds the controller's data model and the resolution /
sync functions (`getServiceEndpoints`, `getEndpoints`, `getService`,
`getServices`, `syncNodes`, `syncServices`, `syncEndpoints`) as pure Lean
functions over explicit store state, and proves the specified properties
about them.

Modelling conventions:
- Go machine integers for ports are modelled as `Int`.  Every port value in
  the source originates from a Kubernetes `int32` field, so the
  `int32(servicePortInt)` conversion in `getEndpoints` is the identity and
  is modelled as such.
- The `cache.Store` interface is modelled by a `list` (the `List()` result)
  together with a `getByKey` function returning `Except String (Option α)`:
  `Except.error e` models `(nil, false, err)`, `Except.ok none` models
  `(nil, false, nil)` (not found), `Except.ok (some o)` models `(o, true, nil)`.
- Fallible Go returns become `Except`; the sync handlers return their error
  value together with the externally observable effects they perform
  (Configurator operations, keys enqueued on the service work queue).
  Logging is not modelled.
-/

/-- Embeds `v1.EndpointAddress` (only the `IP` field is read by the source). -/
structure EndpointAddress where
  ip : String
deriving DecidableEq

/-- Embeds `v1.EndpointPort`: a named, numbered port of an endpoint subset. -/
structure EndpointPort where
  name : String
  port : Int
deriving DecidableEq

/-- Embeds `v1.EndpointSubset`: addresses crossed with the ports they expose. -/
structure EndpointSubset where
  addresses : List EndpointAddress
  ports : List EndpointPort
deriving DecidableEq

/-- Embeds `v1.Endpoints`: the companion endpoints object of a service. -/
structure Endpoints where
  name : String
  nspace : String
  subsets : List EndpointSubset
deriving DecidableEq

/-- Embeds `intstr.IntOrString`, the type of a service port's target port. -/
inductive IntOrString where
  | int (i : Int)
  | str (s : String)
deriving DecidableEq

/-- Embeds `v1.ServicePort`.  `protocol` is the protocol string; the source
compares it against `v1.ProtocolUDP` (`"UDP"`) and treats everything else as
TCP. -/
structure ServicePort where
  name : String
  protocol : String
  port : Int
  targetPort : IntOrString
deriving DecidableEq

/-- Embeds the fields of `v1.Service` read by the source: identity, type,
annotation map (as an association list), and declared ports. -/
structure V1Service where
  name : String
  nspace : String
  serviceType : String
  annotations : List (String × String)
  ports : List ServicePort
deriving DecidableEq

/-- Embeds the repository's `Service` struct, the resolved routing model:
rule name, endpoint address strings, backend (target) port, frontend port,
algorithm and optional virtual host.  Fields not set by `getService` keep
the Go zero value `""` / `0`. -/
structure Service where
  Name : String
  Ep : List String
  BackendPort : Int
  FrontendPort : Int
  Algorithm : String
  Host : String
deriving DecidableEq

/-- Embeds `supportedAlgorithms = []string{"roundrobin", "leastconn"}`. -/
def supportedAlgorithms : List String := ["roundrobin", "leastconn"]

/-- Embeds `defaultAlgorithm = string("roundrobin")`. -/
def defaultAlgorithm : String := "roundrobin"

/-- Modelled from the spec: the annotation key carrying the class/eligibility
marker (the `annotations` package is not under src/; only presence and value
lookup semantics matter). -/
def classAnnotationKey : String := "loadbalancer.lbex/class"

/-- Modelled from the spec: the recognized class annotation value that opts a
service in to lbex management. -/
def lbexClassValue : String := "lbex"

/-- Modelled from the spec: the annotation key carrying the optional virtual
host value. -/
def hostAnnotationKey : String := "loadbalancer.lbex/host"

/-- Modelled from the spec: the annotation key carrying the optional
algorithm value. -/
def algorithmAnnotationKey : String := "loadbalancer.lbex/algorithm"

/-- Looks a key up in a service's annotation map. -/
def annotationValue (svc : V1Service) (key : String) : Option String :=
  (svc.annotations.find? (fun p => p.1 == key)).map (fun p => p.2)

/-- Modelled from the spec: `annotations.GetAlgorithm` (not under src/)
returns the algorithm annotation value and whether it is present. -/
def annotationsGetAlgorithm (svc : V1Service) : Option String :=
  annotationValue svc algorithmAnnotationKey

/-- Modelled from the spec: `annotations.GetHost` (not under src/) returns
the virtual-host annotation value and whether it is present. -/
def annotationsGetHost (svc : V1Service) : Option String :=
  annotationValue svc hostAnnotationKey

/-- Modelled from the spec: `annotations.IsValid` (not under src/) holds when
the service carries the recognized class/eligibility annotation. -/
def annotationsIsValid (svc : V1Service) : Bool :=
  annotationValue svc classAnnotationKey == some lbexClassValue

/-- Modelled from the spec: `ValidateServiceObject` (helper file not under
src/) accepts a candidate service; per spec steps 1 and 2 (and the inline
checks of the earlier revision of `getServices`), it rejects services of the
platform's native `LoadBalancer` type and services lacking the recognized
class annotation. -/
def ValidateServiceObject (svc : V1Service) : Bool :=
  svc.serviceType != "LoadBalancer" && annotationsIsValid svc

/-- Modelled from the spec: `ValidateServiceObjectType` (not under src/)
checks the dynamic type of a store object; in this typed embedding every
services-store object is a `V1Service`, so the check always succeeds. -/
def ValidateServiceObjectType (_ : V1Service) : Bool := true

/-- Modelled from the spec: `GetServiceName` (not under src/) extracts the
service's name. -/
def GetServiceName (svc : V1Service) : String := svc.name

/-- Modelled from the spec: `GetServiceNamespace` (not under src/) extracts
the service's namespace. -/
def GetServiceNamespace (svc : V1Service) : String := svc.nspace

/-- Modelled from the spec: `GetServiceNameForLBRule` (not under src/)
derives a stable rule identifier from the service name and frontend port. -/
def GetServiceNameForLBRule (serviceName : String) (port : Int) : String :=
  serviceName ++ ":" ++ toString port

/-- Modelled from the spec: `GetServicePortTargetPortInt` (not under src/)
returns the target port as an integer when it is numeric and an error when
it is symbolic. -/
def GetServicePortTargetPortInt (sp : ServicePort) : Except String Int :=
  match sp.targetPort with
  | IntOrString.int i => Except.ok i
  | IntOrString.str _ => Except.error "target port is not of integer type"

/-- Embeds the node addresses extracted by `GetNodeAddress`. -/
structure NodeAddressSet where
  hostname : String
  externalIP : String
  internalIP : String
deriving DecidableEq

/-- Embeds `nginx.Node`, the derived per-node record handed to the
Configurator. -/
structure Node where
  Name : String
  Hostname : String
  ExternalIP : String
  InternalIP : String
  Active : Bool
deriving DecidableEq

/-- Modelled from the spec: the node-store object as observed through the
helpers absent from src/ (`ValidateNodeObjectType`, `GetNodeAddress`,
`IsNodeScheduleable`): whether type validation succeeds, the extracted
addresses (`none` models a `GetNodeAddress` error), and schedulability. -/
structure NodeObject where
  typeOk : Bool
  addrs : Option NodeAddressSet
  schedulable : Bool

/-- Embeds the `cache.Store` interface as used by the source: `list` is the
`List()` result, `getByKey` the `GetByKey` lookup (`Except.error` models the
error return, `Except.ok none` the not-found return). -/
structure Store (α : Type) where
  list : List α
  getByKey : String → Except String (Option α)

/-- Embeds the `nginx.Configurator` collaborator boundary used by
`syncNodes`: both node operations return the affected service keys. -/
structure Configurator where
  DeleteNode : String → List String
  AddOrUpdateNode : Node → List String

/-- Embeds the `lbExController` state read by the sync and resolution
functions: the three stores, the single-service scoping filter, the
Configurator, and each queue's shutting-down flag. -/
structure lbExController where
  servicesStore : Store V1Service
  endpointStore : Store Endpoints
  nodesStore : Store NodeObject
  service : String
  cfgtor : Configurator
  nodesQueueShuttingDown : Bool
  servicesQueueShuttingDown : Bool
  endpointsQueueShuttingDown : Bool

/-- Embeds the `obj interface{}` argument of the sync functions: either the
expected string key or a value of some other dynamic type. -/
inductive SyncObj where
  | str (key : String)
  | nonString

/-- Observable Configurator configuration operations issued by the service
and endpoint sync handlers. -/
inductive CfgOp where
  | deleteConfiguration (filename : String) (cfgType : String)
  | addOrUpdateService (filename : String) (key : String)
deriving DecidableEq

/-- Embeds `getServiceEndpoints`: scan the endpoint store listing and return
the first endpoints object whose name and namespace match the service, or an
error when none does. -/
def getServiceEndpoints (lbex : lbExController) (service : V1Service) :
    Except String Endpoints :=
  match lbex.endpointStore.list.find?
      (fun e => service.name == e.name && service.nspace == e.nspace) with
  | some e => Except.ok e
  | none => Except.error ("could not find endpoints for service: " ++ service.name)

/-- Embeds the `switch servicePort.TargetPort.Type` block of `getEndpoints`:
the resolved target port for one subset port entry, with `0` (the Go zero
value of `var targetPort int`) meaning no match.  The `continue` on a
`GetServicePortTargetPortInt` error is observationally the same as resolving
to the `0` sentinel: the entry contributes nothing. -/
def resolvedTargetPort (sp : ServicePort) (epPort : EndpointPort) : Int :=
  match sp.targetPort with
  | IntOrString.int _ =>
    match GetServicePortTargetPortInt sp with
    | Except.error _ => 0
    | Except.ok servicePortInt =>
      if epPort.port = servicePortInt then servicePortInt else 0
  | IntOrString.str sval => if epPort.name = sval then epPort.port else 0

/-- Embeds the body of the `epPort` loop of `getEndpoints`: the addresses a
single subset port entry contributes, each formatted `ip:targetPort`. -/
def entryEndpoints (sp : ServicePort) (addrs : List EndpointAddress)
    (epPort : EndpointPort) : List String :=
  if resolvedTargetPort sp epPort = 0 then []
  else addrs.map (fun a => a.ip ++ ":" ++ toString (resolvedTargetPort sp epPort))

/-- Embeds the body of the `subsets` loop of `getEndpoints`: contributions of
every port entry of one subset, in iteration order. -/
def subsetEndpoints (sp : ServicePort) (ss : EndpointSubset) : List String :=
  ss.ports.flatMap (entryEndpoints sp ss.addresses)

/-- Embeds `getEndpoints`: the `ip:port` strings for a service / target-port
combination, unioned over all subsets of the matching endpoints object. -/
def getEndpoints (lbex : lbExController) (service : V1Service)
    (servicePort : ServicePort) : List String :=
  match getServiceEndpoints lbex service with
  | Except.error _ => []
  | Except.ok svcEndpoints => svcEndpoints.subsets.flatMap (subsetEndpoints servicePort)

/-- Embeds the `for _, current := range SupportedAlgorithms` loop of
`getService` with the accumulator's initial Go zero value `""`: returns
`val` when it occurs in the list and `""` otherwise. -/
def algorithmFromSupported (val : String) : List String → String
  | [] => ""
  | current :: rest => if val = current then val else algorithmFromSupported val rest

/-- Embeds one iteration of the `servicePort` loop of `getService`: `none`
when the resolved endpoint list is empty (the `continue`), otherwise the
built `Service` record. -/
def serviceFromPort (lbex : lbExController) (obj : V1Service)
    (serviceName : String) (sp : ServicePort) : Option Service :=
  if (getEndpoints lbex obj sp).length = 0 then none
  else
    some
      { Name := GetServiceNameForLBRule serviceName sp.port
        Ep := getEndpoints lbex obj sp
        BackendPort :=
          match GetServicePortTargetPortInt sp with
          | Except.ok i => i
          | Except.error _ => 0
        FrontendPort := sp.port
        Algorithm :=
          match annotationsGetAlgorithm obj with
          | some val => algorithmFromSupported val supportedAlgorithms
          | none => defaultAlgorithm
        Host :=
          match annotationsGetHost obj with
          | some val => val
          | none => "" }

/-- Embeds the full `servicePort` loop of `getService`, splitting the built
records into the TCP and UDP lists by declared protocol (everything other
than `"UDP"` is TCP), preserving iteration order. -/
def splitPorts (lbex : lbExController) (obj : V1Service) (serviceName : String) :
    List ServicePort → List Service × List Service
  | [] => ([], [])
  | sp :: rest =>
    match serviceFromPort lbex obj serviceName sp with
    | none => splitPorts lbex obj serviceName rest
    | some newSvc =>
      if sp.protocol = "UDP" then
        ((splitPorts lbex obj serviceName rest).1,
         newSvc :: (splitPorts lbex obj serviceName rest).2)
      else
        (newSvc :: (splitPorts lbex obj serviceName rest).1,
         (splitPorts lbex obj serviceName rest).2)

/-- Embeds the `serviceByName` ordering (comparator file not under src/;
modelled from the spec: services are ordered by rule name). -/
def serviceByName (a b : Service) : Prop := a.Name ≤ b.Name

instance : DecidableRel serviceByName :=
  fun a b => inferInstanceAs (Decidable (a.Name ≤ b.Name))

instance : IsTotal Service serviceByName :=
  ⟨fun a b => le_total a.Name b.Name⟩

instance : IsTrans Service serviceByName :=
  ⟨fun _ _ _ h1 h2 => le_trans h1 h2⟩

/-- Embeds `sort.Sort(serviceByName(svcs))`: produce a permutation sorted by
rule name. -/
def sortByName (svcs : List Service) : List Service :=
  List.insertionSort serviceByName svcs

/-- Embeds `getService`: resolve one service key into its sorted TCP and UDP
routing-model lists. -/
def getService (lbex : lbExController) (key : String) :
    List Service × List Service :=
  match lbex.servicesStore.getByKey key with
  | Except.error _ => ([], [])
  | Except.ok none => ([], [])
  | Except.ok (some obj) =>
    if ValidateServiceObject obj then
      if lbex.service ≠ "" ∧ lbex.service ≠ GetServiceName obj then ([], [])
      else
        (sortByName (splitPorts lbex obj (GetServiceName obj) obj.ports).1,
         sortByName (splitPorts lbex obj (GetServiceName obj) obj.ports).2)
    else ([], [])

/-- Embeds `getServices`: resolve every listed service object (skipping ones
failing validation), concatenate the per-service results, and sort both
lists by rule name. -/
def getServices (lbex : lbExController) : List Service × List Service :=
  let folded := lbex.servicesStore.list.foldl
    (fun (acc : List Service × List Service) (obj : V1Service) =>
      if ValidateServiceObject obj then
        (acc.1 ++ (getService lbex (GetServiceNamespace obj ++ "/" ++ GetServiceName obj)).1,
         acc.2 ++ (getService lbex (GetServiceNamespace obj ++ "/" ++ GetServiceName obj)).2)
      else acc)
    ([], [])
  (sortByName folded.1, sortByName folded.2)

/-- Embeds `syncNodes`: the returned error value together with the service
keys enqueued on the service work queue (the `Enqueue` loop over the
affected-services set returned by the Configurator). -/
def syncNodes (lbex : lbExController) (obj : SyncObj) :
    Except String Unit × List String :=
  if lbex.nodesQueueShuttingDown then (Except.ok (), [])
  else
    match obj with
    | SyncObj.nonString => (Except.error "type assertion faild for key string", [])
    | SyncObj.str key =>
      match lbex.nodesStore.getByKey key with
      | Except.error e => (Except.error e, [])
      | Except.ok none => (Except.ok (), lbex.cfgtor.DeleteNode key)
      | Except.ok (some storeObj) =>
        if storeObj.typeOk then
          match storeObj.addrs with
          | none => (Except.ok (), [])
          | some addrs =>
            (Except.ok (),
             lbex.cfgtor.AddOrUpdateNode
               { Name := key
                 Hostname := addrs.hostname
                 ExternalIP := addrs.externalIP
                 InternalIP := addrs.internalIP
                 Active := storeObj.schedulable })
        else (Except.ok (), [])

/-- Embeds `syncServices`: the returned error value together with the
Configurator configuration operations performed. -/
def syncServices (lbex : lbExController) (obj : SyncObj) :
    Except String Unit × List CfgOp :=
  if lbex.servicesQueueShuttingDown then (Except.ok (), [])
  else
    match obj with
    | SyncObj.nonString =>
      (Except.error "syncServices: type assertion faild for key string", [])
    | SyncObj.str key =>
      let filename := key.replace "/" "-"
      match lbex.servicesStore.getByKey key with
      | Except.error e => (Except.error e, [])
      | Except.ok none =>
        (Except.ok (), [CfgOp.deleteConfiguration filename "stream"])
      | Except.ok (some storeObj) =>
        if ValidateServiceObjectType storeObj then
          if (getService lbex key).2.length = 0 ∧ (getService lbex key).1.length = 0 then
            (Except.ok (), [])
          else (Except.ok (), [CfgOp.addOrUpdateService filename key])
        else (Except.ok (), [])

/-- Embeds `syncEndpoints`: the returned error value together with the
Configurator configuration operations performed.  The deleted branch only
logs (the `UpdateServiceEndpoints` call is commented out in the source), and
the present branch resolves the service purely for logging. -/
def syncEndpoints (lbex : lbExController) (obj : SyncObj) :
    Except String Unit × List CfgOp :=
  if lbex.endpointsQueueShuttingDown then (Except.ok (), [])
  else
    match obj with
    | SyncObj.nonString =>
      (Except.error "syncEndpoints: key string type assertion failed", [])
    | SyncObj.str key =>
      match lbex.endpointStore.getByKey key with
      | Except.error e => (Except.error e, [])
      | Except.ok none => (Except.ok (), [])
      | Except.ok (some _) =>
        let _ := getService lbex key
        (Except.ok (), [])

/-! ### Concrete store states used to exercise the definitions -/

/-- Concrete example: an lbex-eligible TCP service whose algorithm annotation
carries the unsupported value `"weighted"`. -/
def webService : V1Service :=
  { name := "web"
    nspace := "default"
    serviceType := "ClusterIP"
    annotations := [(classAnnotationKey, lbexClassValue), (algorithmAnnotationKey, "weighted")]
    ports := [{ name := "", protocol := "TCP", port := 80, targetPort := IntOrString.int 8080 }] }

/-- Concrete example: the companion endpoints object of `webService` with a
single ready address. -/
def webEndpoints : Endpoints :=
  { name := "web"
    nspace := "default"
    subsets := [{ addresses := [{ ip := "10.0.0.1" }], ports := [{ name := "", port := 8080 }] }] }

/-- A Configurator that reports no affected services. -/
def noopConfigurator : Configurator :=
  { DeleteNode := fun _ => [], AddOrUpdateNode := fun _ => [] }

/-- Concrete controller state holding `webService` and `webEndpoints`. -/
def exampleController : lbExController :=
  { servicesStore :=
      { list := [webService]
        getByKey := fun k => if k = "default/web" then Except.ok (some webService) else Except.ok none }
    endpointStore :=
      { list := [webEndpoints]
        getByKey := fun k => if k = "default/web" then Except.ok (some webEndpoints) else Except.ok none }
    nodesStore := { list := [], getByKey := fun _ => Except.ok none }
    service := ""
    cfgtor := noopConfigurator
    nodesQueueShuttingDown := false
    servicesQueueShuttingDown := false
    endpointsQueueShuttingDown := false }

/-- Concrete example: a service targeting numeric port 80. -/
def webService2 : V1Service :=
  { name := "web2"
    nspace := "default"
    serviceType := "ClusterIP"
    annotations := [(classAnnotationKey, lbexClassValue)]
    ports := [{ name := "", protocol := "TCP", port := 80, targetPort := IntOrString.int 80 }] }

/-- Concrete example: an endpoints object with two subsets both exposing
port 80 with disjoint singleton address sets. -/
def twoSubsetEndpoints : Endpoints :=
  { name := "web2"
    nspace := "default"
    subsets :=
      [{ addresses := [{ ip := "10.0.0.1" }], ports := [{ name := "", port := 80 }] },
       { addresses := [{ ip := "10.0.0.2" }], ports := [{ name := "", port := 80 }] }] }

/-- Concrete controller state holding `webService2` and `twoSubsetEndpoints`. -/
def unionController : lbExController :=
  { servicesStore :=
      { list := [webService2]
        getByKey := fun k => if k = "default/web2" then Except.ok (some webService2) else Except.ok none }
    endpointStore :=
      { list := [twoSubsetEndpoints]
        getByKey := fun _ => Except.ok none }
    nodesStore := { list := [], getByKey := fun _ => Except.ok none }
    service := ""
    cfgtor := noopConfigurator
    nodesQueueShuttingDown := false
    servicesQueueShuttingDown := false
    endpointsQueueShuttingDown := false }

/-- Concrete controller state like `exampleController` but with a different
node store and Configurator (the fields `getService` never reads). -/
def exampleControllerAltNodes : lbExController :=
  { exampleController with
    nodesStore :=
      { list := [{ typeOk := true, addrs := none, schedulable := true }]
        getByKey := fun _ => Except.error "node store down" }
    cfgtor := { DeleteNode := fun k => [k], AddOrUpdateNode := fun _ => ["x"] } }

/-- Concrete controller state whose services store always fails lookups while
the endpoint store holds `webEndpoints` under its key: exercises a
services-store lookup failure occurring inside `getService` during
`syncEndpoints`. -/
def failingServicesController : lbExController :=
  { servicesStore :=
      { list := []
        getByKey := fun _ => Except.error "service store lookup failed" }
    endpointStore :=
      { list := [webEndpoints]
        getByKey := fun k => if k = "default/web" then Except.ok (some webEndpoints) else Except.ok none }
    nodesStore := { list := [], getByKey := fun _ => Except.ok none }
    service := ""
    cfgtor := noopConfigurator
    nodesQueueShuttingDown := false
    servicesQueueShuttingDown := false
    endpointsQueueShuttingDown := false }

/-- Concrete controller state where every store lookup fails. -/
def allStoresFailController : lbExController :=
  { servicesStore := { list := [], getByKey := fun _ => Except.error "boom" }
    endpointStore := { list := [], getByKey := fun _ => Except.error "boom" }
    nodesStore := { list := [], getByKey := fun _ => Except.error "boom" }
    service := ""
    cfgtor := noopConfigurator
    nodesQueueShuttingDown := false
    servicesQueueShuttingDown := false
    endpointsQueueShuttingDown := false }

/-- Concrete controller state whose Configurator reports services
`ns/svc-a` and `ns/svc-c` as affected by any node operation, with an empty
node store (so any node key is treated as deleted). -/
def nodeCascadeController : lbExController :=
  { servicesStore := { list := [], getByKey := fun _ => Except.ok none }
    endpointStore := { list := [], getByKey := fun _ => Except.ok none }
    nodesStore := { list := [], getByKey := fun _ => Except.ok none }
    service := ""
    cfgtor :=
      { DeleteNode := fun _ => ["ns/svc-a", "ns/svc-c"]
        AddOrUpdateNode := fun _ => ["ns/svc-a", "ns/svc-c"] }
    nodesQueueShuttingDown := false
    servicesQueueShuttingDown := false
    endpointsQueueShuttingDown := false }

/-! ### Helper lemmas -/

/-- A `Service` built by `serviceFromPort` always carries the (non-empty)
endpoint list that survived the length check. -/
theorem serviceFromPort_ep_ne_nil {lbex : lbExController} {obj : V1Service}
    {n : String} {sp : ServicePort} {s : Service}
    (h : serviceFromPort lbex obj n sp = some s) : s.Ep ≠ [] := by
  unfold serviceFromPort at h
  split at h
  · exact absurd h (by simp)
  · next hlen =>
    cases h
    intro hnil
    exact hlen (List.length_eq_zero.mpr hnil)

/-- Every service in either component of `splitPorts` comes from a
successful `serviceFromPort`, hence has a non-empty endpoint list. -/
theorem mem_splitPorts_ep_ne_nil {lbex : lbExController} {obj : V1Service}
    {n : String} {svc : Service} (ps : List ServicePort)
    (h : svc ∈ (splitPorts lbex obj n ps).1 ∨ svc ∈ (splitPorts lbex obj n ps).2) :
    svc.Ep ≠ [] := by
  induction ps with
  | nil => simp [splitPorts] at h
  | cons sp rest ih =>
    rw [splitPorts] at h
    cases heq : serviceFromPort lbex obj n sp with
    | none =>
      rw [heq] at h
      exact ih h
    | some s =>
      rw [heq] at h
      by_cases hp : sp.protocol = "UDP"
      · simp only [hp, if_pos rfl] at h
        rcases h with h1 | h2
        · exact ih (Or.inl h1)
        · rcases List.mem_cons.mp h2 with rfl | h3
          · exact serviceFromPort_ep_ne_nil heq
          · exact ih (Or.inr h3)
      · simp only [if_neg hp] at h
        rcases h with h1 | h2
        · rcases List.mem_cons.mp h1 with rfl | h3
          · exact serviceFromPort_ep_ne_nil heq
          · exact ih (Or.inl h3)
        · exact ih (Or.inr h2)

/-- Sorting by rule name preserves membership. -/
theorem mem_sortByName {svc : Service} {l : List Service} :
    svc ∈ sortByName l ↔ svc ∈ l := by
  unfold sortByName
  exact List.mem_insertionSort serviceByName

/-- The output of `sortByName` is sorted by rule name. -/
theorem sorted_sortByName (l : List Service) :
    List.Sorted serviceByName (sortByName l) :=
  List.sorted_insertionSort serviceByName l

/-- Membership characterization for a single subset port entry's
contribution. -/
theorem mem_entryEndpoints {sp : ServicePort} {addrs : List EndpointAddress}
    {p : EndpointPort} {s : String} :
    s ∈ entryEndpoints sp addrs p ↔
      resolvedTargetPort sp p ≠ 0 ∧
        ∃ a ∈ addrs, s = a.ip ++ ":" ++ toString (resolvedTargetPort sp p) := by
  unfold entryEndpoints
  by_cases h : resolvedTargetPort sp p = 0
  · simp [h]
  · simp [h, eq_comm]

/-- Membership characterization for a subset's contribution. -/
theorem mem_subsetEndpoints {sp : ServicePort} {ss : EndpointSubset} {s : String} :
    s ∈ subsetEndpoints sp ss ↔ ∃ p ∈ ss.ports, s ∈ entryEndpoints sp ss.addresses p := by
  unfold subsetEndpoints
  exact List.mem_flatMap

/-- `getServiceEndpoints` reads only the endpoint store. -/
theorem getServiceEndpoints_eq_of_endpointStore {l1 l2 : lbExController}
    (h : l1.endpointStore = l2.endpointStore) (svc : V1Service) :
    getServiceEndpoints l1 svc = getServiceEndpoints l2 svc := by
  unfold getServiceEndpoints
  rw [h]

/-- `getEndpoints` reads only the endpoint store. -/
theorem getEndpoints_eq_of_endpointStore {l1 l2 : lbExController}
    (h : l1.endpointStore = l2.endpointStore) (svc : V1Service) (sp : ServicePort) :
    getEndpoints l1 svc sp = getEndpoints l2 svc sp := by
  unfold getEndpoints
  rw [getServiceEndpoints_eq_of_endpointStore h]

/-- `serviceFromPort` reads only the endpoint store. -/
theorem serviceFromPort_eq_of_endpointStore {l1 l2 : lbExController}
    (h : l1.endpointStore = l2.endpointStore) (obj : V1Service) (n : String)
    (sp : ServicePort) :
    serviceFromPort l1 obj n sp = serviceFromPort l2 obj n sp := by
  unfold serviceFromPort
  rw [getEndpoints_eq_of_endpointStore h]

/-- `splitPorts` reads only the endpoint store. -/
theorem splitPorts_eq_of_endpointStore {l1 l2 : lbExController}
    (h : l1.endpointStore = l2.endpointStore) (obj : V1Service) (n : String)
    (ps : List ServicePort) :
    splitPorts l1 obj n ps = splitPorts l2 obj n ps := by
  induction ps with
  | nil => rfl
  | cons sp rest ih =>
    simp only [splitPorts, ih, serviceFromPort_eq_of_endpointStore h]

/-! ### Claim theorems -/

/-- Claim C1: evaluated at a service whose algorithm annotation carries the
unsupported value `"weighted"`, the `Service` record built by `getService`
has `Algorithm = ""` (the Go zero value), not the default `"roundrobin"`:
the claimed fallback to the default does not happen, because the
default-assignment branch runs only when the annotation is absent. -/
theorem c1_unsupported_algorithm_not_defaulted :
    annotationsGetAlgorithm webService = some "weighted" ∧
    supportedAlgorithms.contains "weighted" = false ∧
    (getService exampleController "default/web").1.map Service.Algorithm = [""] ∧
    "" ≠ defaultAlgorithm := by
  refine ⟨by decide, by decide, by decide, by decide⟩

/-- Claim C2: every `Service` record appearing in either output list of
`getService` has a non-empty endpoint address list; a port that resolves to
zero addresses produces no record at all. -/
theorem c2_output_services_have_endpoints (lbex : lbExController) (key : String)
    (svc : Service)
    (h : svc ∈ (getService lbex key).1 ∨ svc ∈ (getService lbex key).2) :
    svc.Ep ≠ [] := by
  unfold getService at h
  split at h
  · simp at h
  · simp at h
  · split at h
    · split at h
      · simp at h
      · rw [mem_sortByName, mem_sortByName] at h
        exact mem_splitPorts_ep_ne_nil _ h
    · simp at h

/-- Witness for C2 at a concrete store state. -/
theorem c2_witness :
    ({ Name := "web:80", Ep := ["10.0.0.1:8080"], BackendPort := 8080,
       FrontendPort := 80, Algorithm := "", Host := "" } : Service).Ep ≠ [] :=
  c2_output_services_have_endpoints exampleController "default/web" _ (Or.inl (by decide))

/-- Claim C3: port matching in `getEndpoints` is mutually exclusive by the target
port's type.  For a numeric target `i`: an entry matches only when its port
number equals `i` (never by name; the resolution is invariant under renaming
the entry).  For a symbolic target `sval`: an entry matches only when its
name equals `sval`; a name mismatch resolves to the no-match sentinel
regardless of any coincidental numeric equality. -/
theorem c3_port_match_exclusive (sp : ServicePort) (ep : EndpointPort) :
    (∀ i, sp.targetPort = IntOrString.int i →
      ((resolvedTargetPort sp ep ≠ 0 → ep.port = i) ∧
       ∀ n, resolvedTargetPort sp { ep with name := n } = resolvedTargetPort sp ep)) ∧
    (∀ sval, sp.targetPort = IntOrString.str sval →
      ((resolvedTargetPort sp ep ≠ 0 → ep.name = sval) ∧
       (ep.name ≠ sval → resolvedTargetPort sp ep = 0))) := by
  constructor
  · intro i hi
    constructor
    · intro hne
      unfold resolvedTargetPort GetServicePortTargetPortInt at hne
      rw [hi] at hne
      by_cases hp : ep.port = i
      · exact hp
      · simp [hp] at hne
    · intro n
      unfold resolvedTargetPort GetServicePortTargetPortInt
      rw [hi]
  · intro sval hs
    constructor
    · intro hne
      unfold resolvedTargetPort at hne
      rw [hs] at hne
      by_cases hn : ep.name = sval
      · exact hn
      · simp [hn] at hne
    · intro hn
      unfold resolvedTargetPort
      rw [hs]
      simp [hn]

/-- Witness for C3: with symbolic target `"http"`, an entry named
`"metrics"` does not match even though its numeric port 80 coincides with
the service's port. -/
theorem c3_witness :
    resolvedTargetPort
      { name := "", protocol := "TCP", port := 80, targetPort := IntOrString.str "http" }
      { name := "metrics", port := 80 } = 0 :=
  ((c3_port_match_exclusive _ _).2 "http" rfl).2 (by decide)

/-- Claim C4: when the endpoint store yields the endpoints object `eps` for a
service, `getEndpoints` contains exactly the strings `ip:targetPort` drawn
from every subset of `eps` having a port entry that matches the target —
the union over all matching subsets. -/
theorem c4_endpoints_union (lbex : lbExController) (svc : V1Service)
    (sp : ServicePort) (eps : Endpoints)
    (h : getServiceEndpoints lbex svc = Except.ok eps) (s : String) :
    s ∈ getEndpoints lbex svc sp ↔
      ∃ ss ∈ eps.subsets, ∃ p ∈ ss.ports,
        resolvedTargetPort sp p ≠ 0 ∧
          ∃ a ∈ ss.addresses, s = a.ip ++ ":" ++ toString (resolvedTargetPort sp p) := by
  unfold getEndpoints
  rw [h]
  simp only [List.mem_flatMap, mem_subsetEndpoints, mem_entryEndpoints]

/-- Witness for C4: an endpoints object with two subsets both exposing
target port 80 with disjoint singleton address sets yields both addresses. -/
theorem c4_witness :
    "10.0.0.1:80" ∈
        getEndpoints unionController webService2
          { name := "", protocol := "TCP", port := 80, targetPort := IntOrString.int 80 } ∧
      "10.0.0.2:80" ∈
        getEndpoints unionController webService2
          { name := "", protocol := "TCP", port := 80, targetPort := IntOrString.int 80 } :=
  ⟨(c4_endpoints_union unionController webService2 _ twoSubsetEndpoints rfl _).mpr (by decide),
   (c4_endpoints_union unionController webService2 _ twoSubsetEndpoints rfl _).mpr (by decide)⟩

/-- Claim C5: for every store contents and key, both the TCP and the UDP lists
returned by `getService`, and both lists returned by `getServices`, are
sorted by rule name, whatever the iteration order of the store listing. -/
theorem c5_outputs_sorted_by_name (lbex : lbExController) (key : String) :
    List.Sorted serviceByName (getService lbex key).1 ∧
    List.Sorted serviceByName (getService lbex key).2 ∧
    List.Sorted serviceByName (getServices lbex).1 ∧
    List.Sorted serviceByName (getServices lbex).2 := by
  refine ⟨?_, ?_, ?_, ?_⟩
  · unfold getService
    split
    · exact List.sorted_nil
    · exact List.sorted_nil
    · split
      · split
        · exact List.sorted_nil
        · exact sorted_sortByName _
      · exact List.sorted_nil
  · unfold getService
    split
    · exact List.sorted_nil
    · exact List.sorted_nil
    · split
      · split
        · exact List.sorted_nil
        · exact sorted_sortByName _
      · exact List.sorted_nil
  · exact sorted_sortByName _
  · exact sorted_sortByName _

/-- Claim C6: `getService` is a deterministic function of the service store, the
endpoint store and the scoping filter: two controller states agreeing on
those (whatever their node store, Configurator or queue flags) produce
identical TCP and UDP lists for every key, so re-invoking it on unchanged
stores returns identical records in identical order. -/
theorem c6_getService_deterministic (l1 l2 : lbExController) (key : String)
    (hs : l1.servicesStore = l2.servicesStore)
    (he : l1.endpointStore = l2.endpointStore)
    (hf : l1.service = l2.service) :
    getService l1 key = getService l2 key := by
  unfold getService
  rw [hs, hf]
  cases l2.servicesStore.getByKey key with
  | error e => rfl
  | ok o =>
    cases o with
    | none => rfl
    | some obj => simp only [splitPorts_eq_of_endpointStore he]

/-- Witness for C6: states differing only in node store and Configurator
resolve the same key identically. -/
theorem c6_witness :
    getService exampleController "default/web" =
      getService exampleControllerAltNodes "default/web" :=
  c6_getService_deterministic exampleController exampleControllerAltNodes
    "default/web" rfl rfl rfl

/-- Claim C7 counterexample: a store lookup (`GetByKey`) can fail with an error
during a sync invocation without that error being returned.  Here the
endpoint store holds the key, so `syncEndpoints` calls `getService`, whose
services-store lookup fails; `getService` swallows the error into `([], [])`
and `syncEndpoints` returns success — the claimed propagation of every store
lookup failure is violated. -/
theorem c7_store_error_swallowed_counterexample :
    failingServicesController.servicesStore.getByKey "default/web" =
        Except.error "service store lookup failed" ∧
      getService failingServicesController "default/web" = ([], []) ∧
      syncEndpoints failingServicesController (SyncObj.str "default/web") =
        (Except.ok (), []) :=
  ⟨rfl, rfl, rfl⟩

/-- Claim C7 (amended): the error of the sync function's own top-level `GetByKey`
is returned to the work queue by each of the three sync handlers; only the
secondary services-store lookup made inside `getService` is swallowed. -/
theorem c7_direct_store_error_propagated (lbex : lbExController) (key e : String) :
    (lbex.servicesQueueShuttingDown = false →
      lbex.servicesStore.getByKey key = Except.error e →
      (syncServices lbex (SyncObj.str key)).1 = Except.error e) ∧
    (lbex.endpointsQueueShuttingDown = false →
      lbex.endpointStore.getByKey key = Except.error e →
      (syncEndpoints lbex (SyncObj.str key)).1 = Except.error e) ∧
    (lbex.nodesQueueShuttingDown = false →
      lbex.nodesStore.getByKey key = Except.error e →
      (syncNodes lbex (SyncObj.str key)).1 = Except.error e) := by
  refine ⟨?_, ?_, ?_⟩
  · intro hq hk
    simp [syncServices, hq, hk]
  · intro hq hk
    simp [syncEndpoints, hq, hk]
  · intro hq hk
    simp [syncNodes, hq, hk]

/-- Witness for the amended C7 at a concrete state whose stores all fail. -/
theorem c7_amended_witness :
    (syncServices allStoresFailController (SyncObj.str "k")).1 = Except.error "boom" ∧
    (syncEndpoints allStoresFailController (SyncObj.str "k")).1 = Except.error "boom" ∧
    (syncNodes allStoresFailController (SyncObj.str "k")).1 = Except.error "boom" :=
  ⟨(c7_direct_store_error_propagated allStoresFailController "k" "boom").1 rfl rfl,
   (c7_direct_store_error_propagated allStoresFailController "k" "boom").2.1 rfl rfl,
   (c7_direct_store_error_propagated allStoresFailController "k" "boom").2.2 rfl rfl⟩

/-- Claim C8: every service key in the affected-services set returned by the
Configurator is enqueued on the service work queue by `syncNodes`, both when
the node was deleted (via `DeleteNode`) and when it exists and validates
(via `AddOrUpdateNode`). -/
theorem c8_affected_services_enqueued (lbex : lbExController) (key : String)
    (hq : lbex.nodesQueueShuttingDown = false) :
    (lbex.nodesStore.getByKey key = Except.ok none →
      ∀ svc ∈ lbex.cfgtor.DeleteNode key,
        svc ∈ (syncNodes lbex (SyncObj.str key)).2) ∧
    (∀ o a, lbex.nodesStore.getByKey key = Except.ok (some o) → o.typeOk = true →
      o.addrs = some a →
      ∀ svc ∈ lbex.cfgtor.AddOrUpdateNode
          { Name := key, Hostname := a.hostname, ExternalIP := a.externalIP,
            InternalIP := a.internalIP, Active := o.schedulable },
        svc ∈ (syncNodes lbex (SyncObj.str key)).2) := by
  constructor
  · intro hk svc hsvc
    simpa [syncNodes, hq, hk] using hsvc
  · intro o a hk hty ha svc hsvc
    simpa [syncNodes, hq, hk, hty, ha] using hsvc

/-- Witness for C8: deleting a node referenced by services `ns/svc-a` and
`ns/svc-c` enqueues both keys. -/
theorem c8_witness :
    "ns/svc-a" ∈ (syncNodes nodeCascadeController (SyncObj.str "node-1")).2 ∧
    "ns/svc-c" ∈ (syncNodes nodeCascadeController (SyncObj.str "node-1")).2 :=
  ⟨(c8_affected_services_enqueued nodeCascadeController "node-1" rfl).1 rfl
      "ns/svc-a" (by decide),
   (c8_affected_services_enqueued nodeCascadeController "node-1" rfl).1 rfl
      "ns/svc-c" (by decide)⟩

/-- Claim C9: for a key whose endpoints object is gone from the endpoint store,
`syncEndpoints` performs no Configurator operation and returns nil. -/
theorem c9_endpoint_deletion_no_op (lbex : lbExController) (key : String)
    (hq : lbex.endpointsQueueShuttingDown = false)
    (hk : lbex.endpointStore.getByKey key = Except.ok none) :
    syncEndpoints lbex (SyncObj.str key) = (Except.ok (), ([] : List CfgOp)) := by
  simp [syncEndpoints, hq, hk]

/-- Witness for C9 at a concrete state where the key is absent. -/
theorem c9_witness :
    syncEndpoints exampleController (SyncObj.str "default/gone") =
      (Except.ok (), ([] : List CfgOp)) :=
  c9_endpoint_deletion_no_op exampleController "default/gone" rfl rfl

/-- Claim C10: the resolved target port `0` is the no-match sentinel of
`getEndpoints`: an entry resolving to `0` contributes no addresses, and in
particular an entry whose numeric port value is `0` contributes nothing even
when its name or number matches the service port's target. -/
theorem c10_zero_port_sentinel (sp : ServicePort) (p : EndpointPort)
    (addrs : List EndpointAddress) :
    (resolvedTargetPort sp p = 0 → entryEndpoints sp addrs p = []) ∧
    (p.port = 0 → entryEndpoints sp addrs p = []) := by
  have hz : p.port = 0 → resolvedTargetPort sp p = 0 := by
    intro hp
    unfold resolvedTargetPort GetServicePortTargetPortInt
    cases htp : sp.targetPort with
    | int i =>
      simp only [hp]
      by_cases h0 : (0 : Int) = i
      · simp [h0.symm]
      · simp [h0]
    | str sval =>
      by_cases hn : p.name = sval
      · simp [hn, hp]
      · simp [hn]
  constructor
  · intro h
    unfold entryEndpoints
    simp [h]
  · intro hp
    unfold entryEndpoints
    simp [hz hp]

/-- Witness for C10: a name-matching entry with port 0 contributes no
addresses. -/
theorem c10_witness :
    entryEndpoints
      { name := "", protocol := "TCP", port := 80, targetPort := IntOrString.str "http" }
      [{ ip := "10.0.0.9" }] { name := "http", port := 0 } = [] :=
  (c10_zero_port_sentinel _ _ _).2 rfl
